import Mathlib

/- Verification of the alertmanager-bot escalation engine (pkg/telegram).

The Go sources are shallowly embedded: each function below mirrors one Go
function of the repository, with the chat transport modelled as a list of
recorded outbound actions (sends and keyboard edits always succeed and are
appended in call order), the kv-backed member store modelled by the outcome
of its List() call, machine randomness modelled by an explicit seed that is
reduced modulo the bound passed to rand.Intn, and Go runtime panics made
explicit as a third outcome of fallible computations. -/

namespace AlertmanagerBot

namespace telebot

/-- telebot.Chat, reduced to the only field the engine reads (the chat ID). -/
structure Chat where
  ID : Int
  deriving Repr, DecidableEq

end telebot

/-- Outcome of a Go computation: a value, a returned error, or a runtime
panic (out-of-range indexing, rand.Intn on a non-positive bound). -/
inductive GoRes (α : Type) where
  | ok : α → GoRes α
  | err : String → GoRes α
  | panicked : String → GoRes α
  deriving Repr, DecidableEq

/-- Sequencing of Go computations: errors and panics propagate. -/
def GoRes.bind {α β : Type} : GoRes α → (α → GoRes β) → GoRes β
  | .ok a, f => f a
  | .err e, _ => .err e
  | .panicked p, _ => .panicked p

/-- math/rand Intn with the pseudo-random source made explicit: the draw is
seed % n, so over seeds 0..n-1 every value of [0, n) occurs. As in Go,
Intn panics when its bound is not positive. -/
def randIntn (seed : Nat) (n : Int) : GoRes Nat :=
  if n ≤ 0 then .panicked ("invalid argument to Intn")
  else .ok (seed % n.toNat)

/-- Go slice indexing xs[i]: panics when i is out of range. -/
def goIndex {α : Type} (xs : List α) (i : Nat) : GoRes α :=
  match xs.get? i with
  | some x => .ok x
  | none => .panicked ("index out of range")

/-- HandleLevel (callback.go): the level of the member handling the alert. -/
abbrev HandleLevel := String

def levelOne : HandleLevel := "1"

def levelTwo : HandleLevel := "2"

def levelThree : HandleLevel := "3"

/-- AutoForwardTimeout (callback.go): 5 * time.Minute, in nanoseconds. -/
def AutoForwardTimeout : Nat := 5 * 60 * 1000000000

/-- Member (callback.go, kv member store): telegram username, level, chat. -/
structure Member where
  Username : String
  Level : HandleLevel
  Chat : telebot.Chat
  deriving Repr, DecidableEq

/-- Shorthand for a member slice; inside the MemberStore namespace the bare
name List would refer to MemberStore.List. -/
abbrev MemberList := List Member

/-- MemberStore over the libkv backend: kv is the outcome of List(), i.e.
the unmarshalled members or the error the kv backend returned. -/
structure MemberStore where
  kv : GoRes MemberList
  deriving Repr, DecidableEq

/-- MemberStore.List (callback.go): read all members from the kv backend. -/
def MemberStore.List (s : MemberStore) : GoRes MemberList := s.kv

/-- MemberStore.GetMembersByChat (callback.go): all stored members whose
chat ID matches. -/
def MemberStore.GetMembersByChat (s : MemberStore) (chat : telebot.Chat) :
    GoRes MemberList :=
  s.List.bind fun members => .ok (members.filter (fun ms => ms.Chat.ID == chat.ID))

/-- MemberStore.GetRandomMemberByChatandLevel (callback.go): filter the
chat's members by level, then index the group at rand.Intn(len(group)). -/
def MemberStore.GetRandomMemberByChatandLevel (s : MemberStore)
    (chat : telebot.Chat) (level : String) (seed : Nat) : GoRes Member :=
  (s.GetMembersByChat chat).bind fun groupByChat =>
    let groupByLevel := groupByChat.filter (fun mr => mr.Level == level)
    (randIntn seed (groupByLevel.length : Int)).bind fun i =>
      goIndex groupByLevel i

namespace Grouped

/-- Member of the chat-grouped member file (callback.go, lines 42-130):
telegram ID, username and level inside one chat's group. -/
structure Member where
  ID : Int
  Username : String
  Level : String
  deriving Repr, DecidableEq

/-- Members (callback.go, chat-grouped file): all members of one chat. -/
structure Members where
  Chat : telebot.Chat
  Members : List Member
  deriving Repr, DecidableEq

/-- Members.GetRandomMemberByLevel (callback.go, lines 120-130): filter the
group by level, then index it at rand.Intn(len(group) - 1) and return the
chosen username. -/
def Members.GetRandomMemberByLevel (m : Grouped.Members) (level : String) (seed : Nat) :
    GoRes String :=
  let group := m.Members.filter (fun mr => mr.Level == level)
  (randIntn seed ((group.length : Int) - 1)).bind fun i =>
    (goIndex group i).bind fun choosen => .ok choosen.Username

end Grouped

/-- KeyboardButton of an inline control row: display text and opaque
callback data. -/
structure KeyboardButton where
  Text : String
  Data : String
  deriving Repr, DecidableEq

/-- Outbound chat-transport calls recorded by the engine, in call order. -/
inductive OutAction where
  | sendMessage : telebot.Chat → String → OutAction
  | editKeyboard : telebot.Chat → Int → List (List KeyboardButton) → OutAction
  deriving Repr, DecidableEq

/-- strAcknowledgeData (bot.go): the Acknowledge button label and action. -/
def strAcknowledgeData : String := "Acknowledge"

/-- strForwardData (bot.go): the Forward button label and action. -/
def strForwardData : String := "Forward"

/-- fmt.Sprintf of strAcknowledge (callback.go) applied to the sender. -/
def strAcknowledgeMsg (sender : String) : String :=
  "Acknowledge by: @" ++ sender

/-- fmt.Sprintf of strForward (callback.go) applied to sender and target. -/
def strForwardMsg (sender target : String) : String :=
  "@" ++ sender ++ " forward to @" ++ target

/-- fmt.Sprintf of strAutoForward (callback.go) applied to the target. -/
def strAutoForwardMsg (target : String) : String :=
  "Auto forward to next level @" ++ target

/-- CallbackData (callback.go): the json payload carried by inline buttons. -/
structure CallbackData where
  Button : String
  AlertID : String
  deriving Repr, DecidableEq

/-- NewCallbackData (callback.go): builds the payload; the second component
is the returned error, always nil (none). -/
def NewCallbackData (button : String) (alert : String) : CallbackData × Option String :=
  ({ Button := button, AlertID := alert }, none)

/-- HandleAlert (callback.go): per-alert case state. The template.Alert
payload and the node store are omitted: no transition below reads them. -/
structure HandleAlert where
  ID : String
  MessageID : Int
  MemberStore : MemberStore
  Chat : telebot.Chat
  Level : HandleLevel
  LastUpdate : Nat
  AutoForwardFlag : Bool
  deriving Repr, DecidableEq

/-- HandleAlert.IncreaseLevel (callback.go, lines 566-575): advance
1 → 2 → 3 and report true; at any other level leave the case and report
false. The pair is the mutated receiver together with the returned Bool. -/
def HandleAlert.IncreaseLevel (a : HandleAlert) : HandleAlert × Bool :=
  if a.Level = levelOne then ({ a with Level := levelTwo }, true)
  else if a.Level = levelTwo then ({ a with Level := levelThree }, true)
  else (a, false)

/-- HandleAlert.Forward (callback.go, lines 493-523): increase the level
(return value ignored), look up a random member of the chat at the new
level, then send the forward notice and edit the message keyboard down to
the single Acknowledge button carrying the given callback data. The first
component is the state of the case after the call — on a lookup failure the
level increase has already been applied. sender is callback.Sender.Username. -/
def HandleAlert.Forward (a : HandleAlert) (sender : String) (data : String)
    (seed : Nat) : HandleAlert × GoRes (List OutAction) :=
  match (a.IncreaseLevel).1.MemberStore.GetRandomMemberByChatandLevel
      (a.IncreaseLevel).1.Chat (a.IncreaseLevel).1.Level seed with
  | .ok randMember =>
    ((a.IncreaseLevel).1, .ok
      [ .sendMessage (a.IncreaseLevel).1.Chat
          (strForwardMsg sender randMember.Username),
        .editKeyboard (a.IncreaseLevel).1.Chat (a.IncreaseLevel).1.MessageID
          [[{ Text := strAcknowledgeData, Data := data }]] ])
  | .err e => ((a.IncreaseLevel).1, .err e)
  | .panicked p => ((a.IncreaseLevel).1, .panicked p)

/-- HandleAlert.Acknowledge (callback.go, lines 474-490): clear the
auto-forward flag, send the acknowledgment notice, and edit the message
keyboard to an empty one. sender is callback.Sender.Username. -/
def HandleAlert.Acknowledge (a : HandleAlert) (sender : String) :
    HandleAlert × GoRes (List OutAction) :=
  ({ a with AutoForwardFlag := false }, .ok
    [ .sendMessage a.Chat (strAcknowledgeMsg sender),
      .editKeyboard a.Chat a.MessageID [] ])

/-- One iteration of HandleAlert.AutoForward (callback.go, lines 526-544):
while the flag is set, when the timeout has elapsed since LastUpdate the
loop stamps LastUpdate, increases the level, looks up a random member at
the new level and sends the auto-forward notice; a lookup failure exits
the loop with the stamp and the level increase already applied. -/
def HandleAlert.AutoForwardTick (a : HandleAlert) (now : Nat) (seed : Nat) :
    HandleAlert × GoRes (List OutAction) :=
  if a.AutoForwardFlag = true then
    if AutoForwardTimeout ≤ now - a.LastUpdate then
      match (({ a with LastUpdate := now }).IncreaseLevel).1.MemberStore.GetRandomMemberByChatandLevel
          (({ a with LastUpdate := now }).IncreaseLevel).1.Chat
          (({ a with LastUpdate := now }).IncreaseLevel).1.Level seed with
      | .ok randMember =>
        ((({ a with LastUpdate := now }).IncreaseLevel).1, .ok
          [ .sendMessage (({ a with LastUpdate := now }).IncreaseLevel).1.Chat
              (strAutoForwardMsg randMember.Username) ])
      | .err e => ((({ a with LastUpdate := now }).IncreaseLevel).1, .err e)
      | .panicked p => ((({ a with LastUpdate := now }).IncreaseLevel).1, .panicked p)
    else (a, .ok [])
  else (a, .ok [])

/-- HandleAlert.Resolved (callback.go, lines 546-563): clear the
auto-forward flag, send the rendered resolution text, and edit the message
keyboard to an empty one. -/
def HandleAlert.Resolved (a : HandleAlert) (out : String) :
    HandleAlert × GoRes (List OutAction) :=
  ({ a with AutoForwardFlag := false }, .ok
    [ .sendMessage a.Chat out,
      .editKeyboard a.Chat a.MessageID [] ])

/-- The alert registry of Bot.Run: a map from alert ID to tracked cases,
where an absent key is the empty (nil) slice. -/
def emptyRegistry : String → List HandleAlert := fun _ => []

/-- Alert intake of Bot.Run (bot.go, lines 360-370): append the new case
under its ID only when the registry holds nothing (nil) for that ID. -/
def receiveAlert (reg : String → List HandleAlert) (a : HandleAlert) :
    String → List HandleAlert :=
  if reg a.ID = [] then fun id => if id = a.ID then reg a.ID ++ [a] else reg id
  else reg

/-- The operations the dispatch loop and the timer apply to one case. -/
inductive CaseOp where
  | forward : String → String → Nat → CaseOp
  | acknowledge : String → CaseOp
  | autoTick : Nat → Nat → CaseOp
  | resolve : String → CaseOp

/-- Resulting case state of one operation (the recorded transport actions
are dropped). -/
def applyOp (a : HandleAlert) : CaseOp → HandleAlert
  | .forward s d seed => (a.Forward s d seed).1
  | .acknowledge s => (a.Acknowledge s).1
  | .autoTick now seed => (a.AutoForwardTick now seed).1
  | .resolve out => (a.Resolved out).1

/-- Case state after a whole sequence of operations. -/
def runOps (a : HandleAlert) (ops : List CaseOp) : HandleAlert :=
  ops.foldl applyOp a

/-- Numeric reading of a HandleLevel, for the monotonicity statements. -/
def levelNum (l : HandleLevel) : Nat :=
  if l = levelOne then 1
  else if l = levelTwo then 2
  else if l = levelThree then 3
  else 0

/-- Whether some row of an inline keyboard holds a button with this label. -/
def rowHasButton (kb : List (List KeyboardButton)) (text : String) : Bool :=
  kb.any (fun row => row.any (fun b => b.Text == text))

/-- A concrete chat used by the test fixtures. -/
def chatA : telebot.Chat := { ID := 100 }

/-- A level-1 member of chatA. -/
def memberAliceL1 : Member := { Username := ("alice"), Level := levelOne, Chat := chatA }

/-- A level-2 member of chatA. -/
def memberCarolL2 : Member := { Username := ("carol"), Level := levelTwo, Chat := chatA }

/-- A level-3 member of chatA. -/
def memberDaveL3 : Member := { Username := ("dave"), Level := levelThree, Chat := chatA }

/-- A store holding one member of chatA at each level. -/
def storeFull : MemberStore :=
  { kv := .ok [memberAliceL1, memberCarolL2, memberDaveL3] }

/-- A store holding only a level-1 member of chatA: its candidate set at
level 2 is empty. -/
def storeNoL2 : MemberStore := { kv := .ok [memberAliceL1] }

/-- A terminal case: acknowledged (AutoForwardFlag cleared) while at level 1. -/
def termCase : HandleAlert :=
  { ID := ("X"), MessageID := 7, MemberStore := storeFull, Chat := chatA,
    Level := levelOne, LastUpdate := 0, AutoForwardFlag := false }

/-- An active level-1 case over the store with no level-2 member. -/
def caseL1 : HandleAlert :=
  { ID := ("X"), MessageID := 7, MemberStore := storeNoL2, Chat := chatA,
    Level := levelOne, LastUpdate := 0, AutoForwardFlag := true }

/-- An active level-1 case over the fully populated store. -/
def caseL1full : HandleAlert :=
  { ID := ("X"), MessageID := 7, MemberStore := storeFull, Chat := chatA,
    Level := levelOne, LastUpdate := 0, AutoForwardFlag := true }

/-- An active level-3 case over the fully populated store. -/
def caseL3 : HandleAlert :=
  { ID := ("X"), MessageID := 7, MemberStore := storeFull, Chat := chatA,
    Level := levelThree, LastUpdate := 0, AutoForwardFlag := true }

/-- An active level-1 case whose last activity was at time 42. -/
def caseC7 : HandleAlert :=
  { ID := ("X"), MessageID := 7, MemberStore := storeFull, Chat := chatA,
    Level := levelOne, LastUpdate := 42, AutoForwardFlag := true }

/-- The outbound actions of a successful forward of caseL1full by bob. -/
def fwdActs : List OutAction :=
  [ .sendMessage chatA ("@bob forward to @carol"),
    .editKeyboard chatA 7 [[{ Text := strAcknowledgeData, Data := ("d") }]] ]

/-- Grouped-store fixture: a level-1 member. -/
def gAlice : Grouped.Member := { ID := 1, Username := ("alice"), Level := levelOne }

/-- Grouped-store fixture: a second level-1 member. -/
def gBob : Grouped.Member := { ID := 2, Username := ("bob"), Level := levelOne }

/-- A chat group holding two level-1 members. -/
def gMembers2 : Grouped.Members := { Chat := chatA, Members := [gAlice, gBob] }

/-- A chat group holding a single level-1 member. -/
def gMembers1 : Grouped.Members := { Chat := chatA, Members := [gAlice] }

/-- IncreaseLevel never touches the AutoForwardFlag field. -/
theorem IncreaseLevel_AutoForwardFlag (a : HandleAlert) :
    (a.IncreaseLevel).1.AutoForwardFlag = a.AutoForwardFlag := by
  unfold HandleAlert.IncreaseLevel
  split
  · rfl
  · split
    · rfl
    · rfl

/-- IncreaseLevel never touches the LastUpdate field. -/
theorem IncreaseLevel_LastUpdate (a : HandleAlert) :
    (a.IncreaseLevel).1.LastUpdate = a.LastUpdate := by
  unfold HandleAlert.IncreaseLevel
  split
  · rfl
  · split
    · rfl
    · rfl

/-- IncreaseLevel never lowers the numeric level. -/
theorem IncreaseLevel_level_le (a : HandleAlert) :
    levelNum a.Level ≤ levelNum (a.IncreaseLevel).1.Level := by
  unfold HandleAlert.IncreaseLevel
  by_cases h1 : a.Level = levelOne
  · rw [if_pos h1, h1]
    show levelNum levelOne ≤ levelNum levelTwo
    decide
  · rw [if_neg h1]
    by_cases h2 : a.Level = levelTwo
    · rw [if_pos h2, h2]
      show levelNum levelTwo ≤ levelNum levelThree
      decide
    · rw [if_neg h2]

/-- At level 3, IncreaseLevel is the identity and reports false. -/
theorem IncreaseLevel_at_three (a : HandleAlert) (h3 : a.Level = levelThree) :
    a.IncreaseLevel = (a, false) := by
  unfold HandleAlert.IncreaseLevel
  rw [h3]
  rfl

/-- The case state Forward leaves behind is always the IncreaseLevel result,
whatever the directory lookup returned. -/
theorem Forward_fst (a : HandleAlert) (s d : String) (seed : Nat) :
    (a.Forward s d seed).1 = (a.IncreaseLevel).1 := by
  unfold HandleAlert.Forward
  split
  · rfl
  · rfl
  · rfl

/-- A successful Forward reports exactly the forward notice followed by the
Acknowledge-only keyboard edit, for the member the lookup chose. -/
theorem Forward_snd_ok_inv (a : HandleAlert) (s d : String) (seed : Nat)
    (acts : List OutAction) (h : (a.Forward s d seed).2 = .ok acts) :
    ∃ m : Member,
      (a.IncreaseLevel).1.MemberStore.GetRandomMemberByChatandLevel
        (a.IncreaseLevel).1.Chat (a.IncreaseLevel).1.Level seed = .ok m ∧
      acts = [ .sendMessage (a.IncreaseLevel).1.Chat (strForwardMsg s m.Username),
        .editKeyboard (a.IncreaseLevel).1.Chat (a.IncreaseLevel).1.MessageID
          [[{ Text := strAcknowledgeData, Data := d }]] ] := by
  unfold HandleAlert.Forward at h
  split at h
  next m heq =>
    refine ⟨m, heq, ?_⟩
    simp only at h
    injection h with h2
    exact h2.symm
  next e heq =>
    simp only at h
    exact GoRes.noConfusion h
  next p heq =>
    simp only at h
    exact GoRes.noConfusion h

/-- When the lookup succeeds, Forward reports the forward notice and the
Acknowledge-only keyboard edit. -/
theorem Forward_snd_ok (a : HandleAlert) (s d : String) (seed : Nat)
    (m : Member)
    (hm : (a.IncreaseLevel).1.MemberStore.GetRandomMemberByChatandLevel
      (a.IncreaseLevel).1.Chat (a.IncreaseLevel).1.Level seed = .ok m) :
    (a.Forward s d seed).2 =
      .ok [ .sendMessage (a.IncreaseLevel).1.Chat (strForwardMsg s m.Username),
        .editKeyboard (a.IncreaseLevel).1.Chat (a.IncreaseLevel).1.MessageID
          [[{ Text := strAcknowledgeData, Data := d }]] ] := by
  unfold HandleAlert.Forward
  split
  next m2 heq =>
    rw [hm] at heq
    injection heq with heq2
    rw [heq2]
  next e heq => rw [hm] at heq; exact GoRes.noConfusion heq
  next p heq => rw [hm] at heq; exact GoRes.noConfusion heq

/-- The state an auto-forward tick leaves behind: unchanged, or stamped with
now and passed through IncreaseLevel. -/
theorem AutoForwardTick_fst (a : HandleAlert) (now seed : Nat) :
    (a.AutoForwardTick now seed).1 = a ∨
    (a.AutoForwardTick now seed).1 = (({ a with LastUpdate := now }).IncreaseLevel).1 := by
  unfold HandleAlert.AutoForwardTick
  split
  · split
    · split
      · exact Or.inr rfl
      · exact Or.inr rfl
      · exact Or.inr rfl
    · exact Or.inl rfl
  · exact Or.inl rfl

/-- No single operation lowers the numeric level of a case. -/
theorem applyOp_level_mono (a : HandleAlert) (op : CaseOp) :
    levelNum a.Level ≤ levelNum (applyOp a op).Level := by
  cases op with
  | forward s d seed =>
    show levelNum a.Level ≤ levelNum (a.Forward s d seed).1.Level
    rw [Forward_fst]
    exact IncreaseLevel_level_le a
  | acknowledge s => exact Nat.le_refl _
  | autoTick now seed =>
    show levelNum a.Level ≤ levelNum (a.AutoForwardTick now seed).1.Level
    rcases AutoForwardTick_fst a now seed with h | h
    · rw [h]
    · rw [h]
      exact IncreaseLevel_level_le { a with LastUpdate := now }
  | resolve out => exact Nat.le_refl _

/-- C1 counterexample: the claim that Forward/Acknowledge on an
already-terminal case are no-ops fails on the code. On termCase, a case
with its AutoForwardFlag cleared, Forward still raises the level from 1 to
2 and still emits a forward notice and a keyboard edit. -/
theorem C1_counterexample :
    termCase.AutoForwardFlag = false ∧
    termCase.Level = levelOne ∧
    (termCase.Forward ("bob") ("d") 0).1.Level = levelTwo ∧
    (termCase.Forward ("bob") ("d") 0).1.Level ≠ termCase.Level ∧
    (termCase.Forward ("bob") ("d") 0).2 = .ok fwdActs ∧
    (termCase.Forward ("bob") ("d") 0).2 ≠ .ok [] :=
  ⟨rfl, rfl, rfl, by decide, rfl, by decide⟩

/-- C1 (amended): on a case whose AutoForwardFlag is cleared the escalation
timer stays dead — the auto-forward tick does nothing and neither Forward
nor Acknowledge turns the flag back on — but the calls are not no-ops:
Forward still advances the level exactly as IncreaseLevel does (in
particular from level 1 to level 2), and Acknowledge re-sends the
acknowledgment notice and re-clears the keyboard. -/
theorem C1_amended (a : HandleAlert) (s s2 d : String) (now seed seed2 : Nat)
    (h : a.AutoForwardFlag = false) :
    a.AutoForwardTick now seed2 = (a, .ok []) ∧
    (a.Forward s d seed).1.AutoForwardFlag = false ∧
    (a.Acknowledge s2).1.AutoForwardFlag = false ∧
    (a.Forward s d seed).1.Level = (a.IncreaseLevel).1.Level ∧
    (a.Level = levelOne → (a.Forward s d seed).1.Level = levelTwo) ∧
    (a.Acknowledge s2).2 = .ok [ .sendMessage a.Chat (strAcknowledgeMsg s2),
      .editKeyboard a.Chat a.MessageID [] ] := by
  refine ⟨?_, ?_, rfl, ?_, ?_, rfl⟩
  · unfold HandleAlert.AutoForwardTick
    rw [if_neg]
    rw [h]
    exact Bool.false_ne_true
  · rw [Forward_fst, IncreaseLevel_AutoForwardFlag, h]
  · rw [Forward_fst]
  · intro h1
    rw [Forward_fst]
    unfold HandleAlert.IncreaseLevel
    rw [if_pos h1]

/-- Witness for C1 (amended) at the concrete terminal case termCase. -/
theorem C1_amended_witness :
    termCase.AutoForwardFlag = false ∧
    (termCase.AutoForwardTick 9 1 = (termCase, .ok []) ∧
     (termCase.Forward ("bob") ("d") 0).1.AutoForwardFlag = false ∧
     (termCase.Acknowledge ("dana")).1.AutoForwardFlag = false ∧
     (termCase.Forward ("bob") ("d") 0).1.Level = (termCase.IncreaseLevel).1.Level ∧
     (termCase.Level = levelOne → (termCase.Forward ("bob") ("d") 0).1.Level = levelTwo) ∧
     (termCase.Acknowledge ("dana")).2 =
       .ok [ .sendMessage termCase.Chat (strAcknowledgeMsg ("dana")),
         .editKeyboard termCase.Chat termCase.MessageID [] ]) :=
  ⟨rfl, C1_amended termCase ("bob") ("dana") ("d") 9 0 1 rfl⟩

/-- C2 counterexample: the claim that a failed directory lookup leaves the
case in its prior state fails in the code. On caseL1 (level 1, no level-2
member stored) the lookup in Forward fails — it even panics instead of
returning a NotFound error — and the case is left at level 2, not at its
prior level 1: the level increase was committed before the lookup. -/
theorem C2_counterexample :
    caseL1.Level = levelOne ∧
    (caseL1.Forward ("bob") ("d") 0).2 = .panicked ("invalid argument to Intn") ∧
    (caseL1.Forward ("bob") ("d") 0).1.Level = levelTwo ∧
    (caseL1.Forward ("bob") ("d") 0).1.Level ≠ caseL1.Level :=
  ⟨rfl, rfl, rfl, by decide⟩

/-- C2 (amended): when the directory lookup in Forward does not return a
member, the step aborts without sending any notice or keyboard edit, but
the case does not remain in its prior state: its level has already been
advanced by IncreaseLevel before the lookup ran. -/
theorem C2_amended (a : HandleAlert) (s d : String) (seed : Nat)
    (h : ∀ m : Member,
      (a.IncreaseLevel).1.MemberStore.GetRandomMemberByChatandLevel
        (a.IncreaseLevel).1.Chat (a.IncreaseLevel).1.Level seed ≠ .ok m) :
    (a.Forward s d seed).1 = (a.IncreaseLevel).1 ∧
    ∀ acts : List OutAction, (a.Forward s d seed).2 ≠ .ok acts := by
  refine ⟨Forward_fst a s d seed, ?_⟩
  intro acts hacts
  obtain ⟨m, hm, -⟩ := Forward_snd_ok_inv a s d seed acts hacts
  exact h m hm

/-- Witness for C2 (amended) at caseL1, whose level-2 candidate set is
empty so the lookup cannot return a member. -/
theorem C2_amended_witness :
    (caseL1.Forward ("bob") ("d") 0).1 = (caseL1.IncreaseLevel).1 ∧
    (caseL1.Forward ("bob") ("d") 0).2 ≠ .ok [] :=
  ⟨(C2_amended caseL1 ("bob") ("d") 0 (fun m hm => GoRes.noConfusion hm)).1,
   (C2_amended caseL1 ("bob") ("d") 0 (fun m hm => GoRes.noConfusion hm)).2 []⟩

/-- C3: the claim says an empty candidate set yields a NotFound error and
never a panic; the code instead panics. GetRandomMemberByChatandLevel calls
rand.Intn(0) on an empty filtered group, and the chat-grouped
GetRandomMemberByLevel calls rand.Intn(-1): both are Go runtime panics, for
every value of the random source. -/
theorem C3_empty_candidate_crashes :
    (∀ seed, storeNoL2.GetRandomMemberByChatandLevel chatA levelTwo seed
      = .panicked ("invalid argument to Intn")) ∧
    (∀ seed, gMembers1.GetRandomMemberByLevel levelTwo seed
      = .panicked ("invalid argument to Intn")) :=
  ⟨fun _ => rfl, fun _ => rfl⟩

/-- C4 counterexample: the claim that Forward at level 3 is a no-op fails
on the code. On caseL3 the level does stay at 3, but Forward still resolves
a level-3 assignee and still sends a forward notice and a keyboard edit. -/
theorem C4_counterexample :
    caseL3.Level = levelThree ∧
    (caseL3.Forward ("bob") ("d") 0).1.Level = levelThree ∧
    (caseL3.Forward ("bob") ("d") 0).2 =
      .ok [ .sendMessage chatA ("@bob forward to @dave"),
        .editKeyboard chatA 7 [[{ Text := strAcknowledgeData, Data := ("d") }]] ] ∧
    (caseL3.Forward ("bob") ("d") 0).2 ≠ .ok [] :=
  ⟨rfl, rfl, rfl, by decide⟩

/-- C4 (amended): on a case at level 3, Forward leaves the level at 3 (the
IncreaseLevel call reports false without changing it), but it still looks
up a random level-3 member and, when that lookup succeeds, still sends a
forward notice and edits the keyboard down to Acknowledge only. -/
theorem C4_amended (a : HandleAlert) (s d : String) (seed : Nat) (m : Member)
    (h3 : a.Level = levelThree)
    (hm : a.MemberStore.GetRandomMemberByChatandLevel a.Chat levelThree seed = .ok m) :
    (a.Forward s d seed).1.Level = levelThree ∧
    (a.Forward s d seed).2 =
      .ok [ .sendMessage a.Chat (strForwardMsg s m.Username),
        .editKeyboard a.Chat a.MessageID
          [[{ Text := strAcknowledgeData, Data := d }]] ] := by
  have hI : a.IncreaseLevel = (a, false) := IncreaseLevel_at_three a h3
  constructor
  · rw [Forward_fst, hI]
    exact h3
  · have hm2 : (a.IncreaseLevel).1.MemberStore.GetRandomMemberByChatandLevel
        (a.IncreaseLevel).1.Chat (a.IncreaseLevel).1.Level seed = .ok m := by
      rw [hI]
      show a.MemberStore.GetRandomMemberByChatandLevel a.Chat a.Level seed = .ok m
      rw [h3]
      exact hm
    rw [Forward_snd_ok a s d seed m hm2, hI]

/-- Witness for C4 (amended) at caseL3, whose store holds dave at level 3. -/
theorem C4_amended_witness :
    caseL3.Level = levelThree ∧
    ((caseL3.Forward ("bob") ("d") 5).1.Level = levelThree ∧
     (caseL3.Forward ("bob") ("d") 5).2 =
       .ok [ .sendMessage caseL3.Chat (strForwardMsg ("bob") memberDaveL3.Username),
         .editKeyboard caseL3.Chat caseL3.MessageID
           [[{ Text := strAcknowledgeData, Data := ("d") }]] ]) :=
  ⟨rfl, C4_amended caseL3 ("bob") ("d") 5 memberDaveL3 rfl rfl⟩

/-- C5 counterexample: the claim that the control row after a successful
Forward contains the Forward button iff the new level is below 3 fails on
the code: forwarding caseL1full lands at level 2, yet the edited row holds
Acknowledge only, so the claimed equivalence is false. -/
theorem C5_counterexample :
    (caseL1full.Forward ("bob") ("d") 0).1.Level = levelTwo ∧
    levelNum levelTwo < 3 ∧
    (caseL1full.Forward ("bob") ("d") 0).2 = .ok fwdActs ∧
    ¬ (rowHasButton [[{ Text := strAcknowledgeData, Data := ("d") }]]
        strForwardData = true ↔ levelNum levelTwo < 3) :=
  ⟨rfl, by decide, rfl, by decide⟩

/-- C5 (amended): after every successful Forward, whatever the new level,
the keyboard edit attached to the outbound actions carries exactly one row
with the single Acknowledge button (holding the passed callback data): the
Forward button is always dropped, at level 2 just as at level 3. -/
theorem C5_amended (a : HandleAlert) (s d : String) (seed : Nat)
    (acts : List OutAction) (h : (a.Forward s d seed).2 = .ok acts) :
    ∀ c mid kb, OutAction.editKeyboard c mid kb ∈ acts →
      kb = [[{ Text := strAcknowledgeData, Data := d }]] := by
  obtain ⟨m, -, hacts⟩ := Forward_snd_ok_inv a s d seed acts h
  subst hacts
  intro c mid kb hmem
  simp only [List.mem_cons, List.not_mem_nil, or_false] at hmem
  rcases hmem with h1 | h1
  · exact OutAction.noConfusion h1
  · injection h1 with h2 h3 h4

/-- Witness for C5 (amended) at caseL1full: the forward to level 2 succeeds
and its keyboard edit is the Acknowledge-only row. -/
theorem C5_amended_witness :
    (caseL1full.Forward ("bob") ("d") 0).2 = .ok fwdActs ∧
    ([[{ Text := strAcknowledgeData, Data := ("d") }]] : List (List KeyboardButton))
      = [[{ Text := strAcknowledgeData, Data := ("d") }]] :=
  ⟨rfl, C5_amended caseL1full ("bob") ("d") 0 fwdActs rfl chatA 7
    [[{ Text := strAcknowledgeData, Data := ("d") }]] (by decide)⟩

/-- C6: over any single operation and any sequence of operations (Forward,
Acknowledge, timer tick, Resolve) applied to any case, the numeric level
never decreases: every mutation of Level goes through IncreaseLevel, which
only moves 1 to 2 and 2 to 3. -/
theorem C6_level_monotone (a : HandleAlert) (op : CaseOp) (ops : List CaseOp) :
    levelNum a.Level ≤ levelNum (applyOp a op).Level ∧
    levelNum a.Level ≤ levelNum (runOps a ops).Level := by
  refine ⟨applyOp_level_mono a op, ?_⟩
  induction ops generalizing a with
  | nil => exact Nat.le_refl _
  | cons o os ih =>
    exact Nat.le_trans (applyOp_level_mono a o) (ih (applyOp a o))

/-- C7 counterexample: the claim that every successful user-triggered
Forward updates LastUpdate (and thereby resets the escalation deadline)
fails on the code: forwarding caseC7 succeeds — the notice and the keyboard
edit go out — yet LastUpdate stays at 42; Forward does not even receive a
clock. -/
theorem C7_counterexample :
    caseC7.LastUpdate = 42 ∧
    (caseC7.Forward ("bob") ("d") 0).2 = .ok fwdActs ∧
    (caseC7.Forward ("bob") ("d") 0).1.LastUpdate = 42 :=
  ⟨rfl, rfl, rfl⟩

/-- C7 (amended): only the timer-driven path resets the escalation window:
an auto-forward tick that fires stamps LastUpdate with the current time,
while a user-triggered Forward always leaves LastUpdate unchanged. -/
theorem C7_amended (a : HandleAlert) (s d : String) (now seed seed2 : Nat)
    (hflag : a.AutoForwardFlag = true)
    (hdue : AutoForwardTimeout ≤ now - a.LastUpdate) :
    (a.AutoForwardTick now seed2).1.LastUpdate = now ∧
    (a.Forward s d seed).1.LastUpdate = a.LastUpdate := by
  constructor
  · unfold HandleAlert.AutoForwardTick
    rw [if_pos hflag, if_pos hdue]
    split
    next m heq => simp [IncreaseLevel_LastUpdate]
    next e heq => simp [IncreaseLevel_LastUpdate]
    next p heq => simp [IncreaseLevel_LastUpdate]
  · rw [Forward_fst, IncreaseLevel_LastUpdate]

/-- Witness for C7 (amended) at caseL1full with the timeout just elapsed. -/
theorem C7_amended_witness :
    (caseL1full.AutoForwardTick AutoForwardTimeout 0).1.LastUpdate = AutoForwardTimeout ∧
    (caseL1full.Forward ("bob") ("d") 3).1.LastUpdate = caseL1full.LastUpdate :=
  C7_amended caseL1full ("bob") ("d") AutoForwardTimeout 3 0 rfl (by decide)

/-- C8: alert intake inserts a case into the registry only when its alert
ID is absent (maps to the nil slice): an intake event for an already
present ID leaves the registry unchanged, and two firing events sharing an
ID leave exactly the first case tracked under that ID. -/
theorem C8_duplicate_ignored (reg : String → List HandleAlert)
    (a a2 b : HandleAlert)
    (hpresent : reg a.ID ≠ []) (hid : b.ID = a2.ID) :
    receiveAlert reg a = reg ∧
    receiveAlert (receiveAlert emptyRegistry a2) b a2.ID = [a2] := by
  constructor
  · exact if_neg hpresent
  · have h1 : receiveAlert emptyRegistry a2 a2.ID = [a2] := by
      unfold receiveAlert emptyRegistry
      simp
    have h2 : receiveAlert emptyRegistry a2 b.ID ≠ [] := by
      rw [hid, h1]
      exact fun hh => List.noConfusion hh
    have h3 : receiveAlert (receiveAlert emptyRegistry a2) b
        = receiveAlert emptyRegistry a2 := if_neg h2
    rw [h3, h1]

/-- Witness for C8 at concrete cases sharing the alert ID X. -/
theorem C8_witness :
    receiveAlert (fun _ => [caseL1full]) caseL1full = (fun _ => [caseL1full]) ∧
    receiveAlert (receiveAlert emptyRegistry caseL1full) termCase caseL1full.ID
      = [caseL1full] :=
  C8_duplicate_ignored (fun _ => [caseL1full]) caseL1full caseL1full termCase
    (fun hh => List.noConfusion hh) rfl

/-- C9: the claim of uniform selection with every candidate reachable fails
on the code: the chat-grouped GetRandomMemberByLevel draws from
rand.Intn(len(group) - 1), so with two level-1 members every draw returns
the first and the last member is never selected, and a singleton candidate
set makes it panic via rand.Intn(0). -/
theorem C9_selection_biased :
    (∀ seed, gMembers2.GetRandomMemberByLevel levelOne seed = .ok ("alice")) ∧
    (∀ seed, gMembers1.GetRandomMemberByLevel levelOne seed
      = .panicked ("invalid argument to Intn")) := by
  constructor
  · intro seed
    show ((GoRes.ok (seed % 1)).bind fun i =>
        (goIndex ([gAlice, gBob].filter (fun mr => mr.Level == levelOne)) i).bind
          fun choosen => GoRes.ok choosen.Username) = GoRes.ok ("alice")
    rw [Nat.mod_one]
    rfl
  · intro seed
    rfl

/-- C10: NewCallbackData copies its two arguments into the Button and
AlertID fields and always returns a nil error, so callers' error branches
on it can never be taken. -/
theorem C10_NewCallbackData_total (button alert : String) :
    (NewCallbackData button alert).1.Button = button ∧
    (NewCallbackData button alert).1.AlertID = alert ∧
    (NewCallbackData button alert).2 = none :=
  ⟨rfl, rfl, rfl⟩

end AlertmanagerBot
